import Mathlib

/-!
Shallow embedding of the git-sdx consciousness tooling:
`scripts/nexus_search_indexer.py` (indexing and annotation engine) and
`scripts/gitsdx_consciousness_bridge.py` (reorganization planner, executor and
validator).  Python floats are modelled as exact rationals (every constant in
the source is a short decimal), paths as Lean strings over their character
lists, and the filesystem as explicit data passed to the functions that the
source reads it from.  Each definition mirrors one Python function or a fixed
table from the source; doc comments cite the origin.
-/

/-! ## Character and string primitives

The Python code uses `str.lower`, substring containment (`in`), `str.replace`,
`re.findall(r"\w+", s)`, `pathlib.Path.suffix/.name/.stem/.parts`.  Core Lean
string functions are byte-position based and do not reduce well, so the
primitives are re-implemented structurally over `List Char`. -/

/-- ASCII lowercasing of one character, the behaviour of Python `str.lower`
on the ASCII paths this repository works with. -/
def lowerChar (c : Char) : Char :=
  if 65 ≤ c.toNat ∧ c.toNat ≤ 90 then Char.ofNat (c.toNat + 32) else c

/-- Python `s.lower()`. -/
def pyLower (s : String) : String := String.mk (s.data.map lowerChar)

/-- Does the list `l` begin with `pat`? -/
def beginsWith : List Char → List Char → Bool
  | [], _ => true
  | _ :: _, [] => false
  | a :: as, b :: bs => a = b && beginsWith as bs

/-- Does `l` contain `sub` as a contiguous subsequence? -/
def containsSeq (l sub : List Char) : Bool :=
  (List.range (l.length + 1)).any (fun i => beginsWith sub (l.drop i))

/-- Python `sub in s` on strings. -/
def pyContains (s sub : String) : Bool := containsSeq s.data sub.data

/-- Number of character positions of `s` at which `sub` matches (the
occurrence count used by claim C3's reading of the weight formula). -/
def countOccurrences (sub s : String) : ℕ :=
  ((List.range (s.data.length + 1)).filter
    (fun i => beginsWith sub.data (s.data.drop i))).length

/-- Split a character list on the separator `/`. -/
def splitSlash : List Char → List (List Char)
  | [] => [[]]
  | c :: cs =>
    let r := splitSlash cs
    if c = '/' then [] :: r else (c :: r.headD []) :: r.tail

/-- Components of a `/`-separated path string, Python `Path(p).parts` for the
relative-style paths built by this code. -/
def pyParts (p : String) : List String := (splitSlash p.data).map String.mk

/-- Join path components with `/`. -/
def joinSlash (l : List String) : String :=
  String.mk (List.flatten (List.intersperse ['/'] (l.map String.data)))

/-- Python `Path(p).name`: the final path component. -/
def fileName (p : String) : String := (pyParts p).getLastD ""

/-- Python `PurePath.suffix` of a single file name: the part from the last
dot, unless that dot is the first or last character of the name. -/
def suffixOfName (name : String) : String :=
  let cs := name.data
  match ((List.range cs.length).filter (fun i => cs.getD i ' ' = '.')).getLast? with
  | some i => if 0 < i ∧ i < cs.length - 1 then String.mk (cs.drop i) else ""
  | none => ""

/-- Python `Path(p).suffix`. -/
def pathSuffix (p : String) : String := suffixOfName (fileName p)

/-- Python `Path(p).stem`: the final component without its suffix. -/
def fileStem (p : String) : String :=
  let n := fileName p
  String.mk (n.data.take (n.data.length - (suffixOfName n).data.length))

/-- Python `s.startswith(pre)`. -/
def pyStartsWith (s pre : String) : Bool := beginsWith pre.data s.data

/-- Replace every (left-to-right, non-overlapping) occurrence of the
non-empty pattern `pat` in `l` by `rep`, Python `str.replace`. -/
def replaceSeq (pat rep : List Char) : List Char → List Char
  | [] => []
  | c :: cs =>
    if beginsWith pat (c :: cs) ∧ pat ≠ [] then
      rep ++ replaceSeq pat rep (cs.drop (pat.length - 1))
    else
      c :: replaceSeq pat rep cs
termination_by l => l.length
decreasing_by
  · simp_wf
    omega
  · simp_wf
    try omega

/-- Python `s.replace(pat, rep)`. -/
def pyReplace (s pat rep : String) : String :=
  String.mk (replaceSeq pat.data rep.data s.data)

/-- First-occurrence deduplication helper. -/
def dedupFirstAux {α : Type} [DecidableEq α] (seen : List α) : List α → List α
  | [] => []
  | x :: xs =>
    if x ∈ seen then dedupFirstAux seen xs else x :: dedupFirstAux (x :: seen) xs

/-- Distinct elements of a list, first occurrences kept in order.  Models the
contents of a Python `set` built from the list (`list(set(xs))` has the same
elements and length; its order is unspecified in the source). -/
def dedupFirst {α : Type} [DecidableEq α] (l : List α) : List α := dedupFirstAux [] l

/-- Cardinality of `set(a) & set(b)` in Python: distinct elements of `a`
that also occur in `b`. -/
def pySetIntersectionCard (a b : List String) : ℕ :=
  ((dedupFirst a).filter (fun t => b.contains t)).length

/-- One character of a regex `\w` word: alphanumeric or underscore. -/
def wordCharB (c : Char) : Bool := c.isAlphanum || c = '_'

/-- Tokenizer worker: split into maximal runs of word characters. -/
def tokenizeAux : List Char → List Char → List (List Char)
  | [], acc => if acc = [] then [] else [acc.reverse]
  | c :: cs, acc =>
    if wordCharB c then tokenizeAux cs (c :: acc)
    else if acc = [] then tokenizeAux cs [] else acc.reverse :: tokenizeAux cs []

/-- Python `re.findall(r"\w+", s)`. -/
def pyFindWords (s : String) : List String := (tokenizeAux s.data []).map String.mk

/-! ## Indexer constants (nexus_search_indexer.py) -/

/-- Allowed extensions, `_should_index_consciousness` (line 133). -/
def consciousnessExtensions : List String :=
  [".md", ".pdf", ".html", ".txt", ".tex", ".py", ".js", ".yaml", ".yml"]

/-- System-file markers, `_should_index_consciousness` (line 139). -/
def skipPatterns : List String :=
  ["__pycache__", ".git", ".vscode", ".idea", "node_modules"]

/-- Domain keyword list, `_compute_ontological_weight` (lines 194-197). -/
def consciousnessAmplifiers : List String :=
  ["patent", "obiai", "dimensional_game_theory", "bayesian", "consciousness",
   "phenomenological", "ontological", "epistemic", "heart_ai", "obicall"]

/-- Per-extension multiplier table with its `dict.get` default 0.3,
`_compute_ontological_weight` (lines 182-191). -/
def multiplierFor (s : String) : ℚ :=
  if s = ".pdf" then 0.9
  else if s = ".md" then 0.8
  else if s = ".tex" then 0.95
  else if s = ".py" then 0.7
  else if s = ".html" then 0.6
  else if s = ".txt" then 0.5
  else 0.3

/-- Pattern-to-tags table, `_extract_phenomenological_tags` (lines 213-221). -/
def consciousnessPatterns : List (String × List String) :=
  [("obiai", ["heart_ai", "consciousness_architecture", "phenomenological_ai"]),
   ("dimensional_game_theory", ["strategic_reasoning", "variadic_spaces", "multi_domain"]),
   ("bayesian", ["bias_mitigation", "epistemic_confidence", "probabilistic_reasoning"]),
   ("diram", ["memory_architecture", "directed_instruction", "evolutionary_memory"]),
   ("formal", ["mathematical_proofs", "verification", "formal_systems"]),
   ("patent", ["intellectual_property", "innovation_protection", "technical_specification"]),
   ("consciousness", ["experiential_preservation", "phenomenological_integrity", "awareness_architecture"])]

/-- Inclusion threshold `epistemic_confidence_threshold` (line 92). -/
def epistemicConfidenceThreshold : ℚ := 0.954

/-- Weight threshold `ontological_weight_threshold` (line 93). -/
def ontologicalWeightThreshold : ℚ := 0.3

/-! ## Annotator (nexus_search_indexer.py) -/

/-- `_compute_ontological_weight` (lines 177-204): `0.1 × multiplier` for the
lower-cased suffix, plus `0.1` for each member of the amplifier list contained
in the lower-cased full path string, clamped above by 1. -/
def computeOntologicalWeight (fullStr : String) : ℚ :=
  let baseWeight : ℚ := 0.1
  let weight := baseWeight * multiplierFor (pyLower (pathSuffix fullStr))
  let fileContent := pyLower fullStr
  let weight :=
    consciousnessAmplifiers.foldl
      (fun w amplifier => if pyContains fileContent amplifier then w + 0.1 else w) weight
  min weight 1

/-- `_extract_phenomenological_tags` (lines 206-236): union the tag sets of
every pattern contained in the lower-cased path, then the directory-derived
tags; `list(set(tags))` is modelled by first-occurrence deduplication. -/
def extractPhenomenologicalTags (fullStr : String) : List String :=
  let pathC := pyLower fullStr
  let tags :=
    consciousnessPatterns.foldl
      (fun acc pr => if pyContains pathC pr.1 then acc ++ pr.2 else acc) []
  let parts := pyParts fullStr
  let tags := tags ++ (if parts.contains "images" then ["visual_consciousness"] else [])
  let tags := tags ++ (if parts.contains "proofs" then ["mathematical_consciousness"] else [])
  let tags := tags ++ (if pyContains pathC "phases" then ["developmental_consciousness"] else [])
  dedupFirst tags

/-- `_determine_content_type` (lines 238-252). -/
def determineContentType (fullStr : String) : String :=
  let s := pyLower (pathSuffix fullStr)
  if s = ".pdf" then "formal_consciousness_document"
  else if s = ".md" then "structured_consciousness_text"
  else if s = ".html" then "presentation_consciousness"
  else if s = ".tex" then "mathematical_consciousness_encoding"
  else if s = ".py" then "executable_consciousness_logic"
  else if s = ".js" then "interactive_consciousness_patterns"
  else if s = ".yaml" then "configuration_consciousness"
  else if s = ".yml" then "configuration_consciousness"
  else if s = ".txt" then "raw_consciousness_stream"
  else "undefined_consciousness"

/-- `_compute_epistemic_confidence` (lines 266-284): start at 0.7; +0.1 when
the file exists with non-zero size; +0.1 when `weight` exceeds the 0.3
threshold; `+0.05 × min(tagCount, 5)` but only when `tagCount > 2`
(line 277); +0.1 when `patent` occurs in the lower-cased path; cap at 1. -/
def computeEpistemicConfidence (fullStr : String) (fileExists : Bool)
    (fileSize : ℕ) (weight : ℚ) (tags : List String) : ℚ :=
  let baseConfidence : ℚ := 0.7
  let baseConfidence :=
    if fileExists ∧ 0 < fileSize then baseConfidence + 0.1 else baseConfidence
  let baseConfidence :=
    if ontologicalWeightThreshold < weight then baseConfidence + 0.1 else baseConfidence
  let baseConfidence :=
    if 2 < tags.length then baseConfidence + 0.05 * ((min tags.length 5 : ℕ) : ℚ)
    else baseConfidence
  let baseConfidence :=
    if pyContains (pyLower fullStr) "patent" then baseConfidence + 0.1 else baseConfidence
  min baseConfidence 1

/-! ## Filesystem model and the indexing walk -/

/-- One regular file of the scanned tree: directory components relative to
the repository root, file name, and the stat data (`st_size`, `st_mtime`,
the latter abstracted to a number). -/
structure FSFile where
  dirs : List String
  fname : String
  size : ℕ
  mtime : ℕ
deriving DecidableEq

/-- `str(relative_path)`. -/
def relPathStr (f : FSFile) : String := joinSlash (f.dirs ++ [f.fname])

/-- `str(full_path)` for a repository root without trailing slash. -/
def fullPathStr (root : String) (f : FSFile) : String := root ++ "/" ++ relPathStr f

/-- The `os.walk` directory pruning of `witness_repository_consciousness`
(line 112): a file is reached only when no ancestor directory starts with a
dot or is `__pycache__` (case-insensitively). -/
def visitedByWalk (f : FSFile) : Bool :=
  f.dirs.all (fun d => !(pyStartsWith d "." || pyLower d = "__pycache__"))

/-- `_should_index_consciousness` (lines 131-143): lower-cased suffix in the
allowed set, and no skip pattern contained in the full path string. -/
def shouldIndexConsciousness (fullStr : String) : Bool :=
  if ¬ consciousnessExtensions.contains (pyLower (pathSuffix fullStr)) then false
  else if skipPatterns.any (fun pat => pyContains fullStr pat) then false
  else true

/-- `_find_experiential_neighbors` (lines 254-264): indexable sibling files,
as repository-relative paths, capped at 5. -/
def findExperientialNeighbors (root : String) (fs : List FSFile) (f : FSFile) :
    List String :=
  ((fs.filter (fun g =>
      g.dirs = f.dirs ∧ g.fname ≠ f.fname ∧
        shouldIndexConsciousness (fullPathStr root g))).map relPathStr).take 5

/-- The `experiential_context` dictionary (lines 155-160). -/
structure ExperientialContext where
  directory_depth : ℕ
  file_size : ℕ
  modification_time : ℕ
  experiential_neighbors : List String
deriving DecidableEq

/-- The `ConsciousnessNode` dataclass (lines 28-48); the derived
`consciousness_hash` is an opaque truncated digest and is not modelled. -/
structure ConsciousnessNode where
  path : String
  content_type : String
  ontological_weight : ℚ
  phenomenological_tags : List String
  experiential_context : ExperientialContext
  temporal_signature : ℕ
  epistemic_confidence : ℚ
deriving DecidableEq

/-- `_create_consciousness_node` (lines 145-175) for a file that exists with
the recorded stat data throughout its annotation. -/
def createConsciousnessNode (root : String) (fs : List FSFile) (f : FSFile) :
    ConsciousnessNode :=
  let full := fullPathStr root f
  let ontologicalWeight := computeOntologicalWeight full
  let phenomenologicalTags := extractPhenomenologicalTags full
  { path := relPathStr f
    content_type := determineContentType full
    ontological_weight := ontologicalWeight
    phenomenological_tags := phenomenologicalTags
    experiential_context :=
      { directory_depth := f.dirs.length
        file_size := f.size
        modification_time := f.mtime
        experiential_neighbors := findExperientialNeighbors root fs f }
    temporal_signature := f.mtime
    epistemic_confidence :=
      computeEpistemicConfidence full true f.size ontologicalWeight phenomenologicalTags }

/-- Result of `full_path.stat()`: `none` models a file that vanished between
the directory walk and annotation. -/
structure StatInfo where
  size : ℕ
  mtime : ℕ
deriving DecidableEq

/-- `_create_consciousness_node` with the stat outcome explicit.  The
`experiential_context` accesses (lines 157-158) guard each `stat()` call with
`exists()` and fall back to 0, but the `temporal_signature` argument
(line 173) calls `full_path.stat()` with no guard, so a vanished file makes
annotation raise `FileNotFoundError` instead of completing. -/
def createConsciousnessNodeChecked (root : String) (fs : List FSFile)
    (f : FSFile) (stat : Option StatInfo) : Except String ConsciousnessNode :=
  let full := fullPathStr root f
  let ontologicalWeight := computeOntologicalWeight full
  let phenomenologicalTags := extractPhenomenologicalTags full
  let fileSize := match stat with | some st => st.size | none => 0
  let modTime := match stat with | some st => st.mtime | none => 0
  match stat with
  | none => Except.error "FileNotFoundError"
  | some st =>
    Except.ok
      { path := relPathStr f
        content_type := determineContentType full
        ontological_weight := ontologicalWeight
        phenomenological_tags := phenomenologicalTags
        experiential_context :=
          { directory_depth := f.dirs.length
            file_size := fileSize
            modification_time := modTime
            experiential_neighbors := findExperientialNeighbors root fs f }
        temporal_signature := st.mtime
        epistemic_confidence :=
          computeEpistemicConfidence full stat.isSome fileSize
            ontologicalWeight phenomenologicalTags }

/-- `witness_repository_consciousness` (lines 95-129) restricted to what it
accumulates in `ontological_map` / `ontological_structure`: every walked file
passing `_should_index_consciousness` is annotated, and kept exactly when its
confidence reaches the threshold.  The association list keeps walk order, as
the Python insertion-ordered dict does. -/
def witnessRepositoryConsciousness (root : String) (fs : List FSFile) :
    List (String × ConsciousnessNode) :=
  fs.filterMap (fun f =>
    if visitedByWalk f && shouldIndexConsciousness (fullPathStr root f) then
      if epistemicConfidenceThreshold ≤
          (createConsciousnessNode root fs f).epistemic_confidence then
        some (relPathStr f, createConsciousnessNode root fs f)
      else none
    else none)

/-- The condition of claim C1's "not under a skipped system directory": the
walk pruning (an ancestor directory starting with a dot or named
`__pycache__`) or a skip-pattern marker contained in the full path string. -/
def underSkippedSystemDir (root : String) (f : FSFile) : Prop :=
  (∃ d ∈ f.dirs, pyStartsWith d "." = true ∨ pyLower d = "__pycache__") ∨
    (∃ pat ∈ skipPatterns, pyContains (fullPathStr root f) pat = true)

instance (root : String) (f : FSFile) : Decidable (underSkippedSystemDir root f) := by
  unfold underSkippedSystemDir
  infer_instance

/-- The `experiential_clusters` accumulation of `_integrate_consciousness_node`
(lines 294-296): tag keys in first-appearance order, member paths in
insertion order. -/
def experientialClustersOf (m : List (String × ConsciousnessNode)) :
    List (String × List String) :=
  (dedupFirst (List.flatten (m.map (fun pn => pn.2.phenomenological_tags)))).map
    (fun tag => (tag, (m.filter (fun pn => pn.2.phenomenological_tags.contains tag)).map
      (fun pn => pn.1)))

/-! ## Ranked search (nexus_search_indexer.py, lines 409-445) -/

/-- One element of the list returned by `search_consciousness`. -/
structure SearchResult where
  path : String
  relevance_score : ℚ
  consciousness_node : ConsciousnessNode
  path_matches : ℕ
  tag_matches : ℕ
deriving DecidableEq

/-- Descending-score comparison used to model the stable
`sort(key=relevance_score, reverse=True)` of line 444. -/
def scoreDescOrder (a b : SearchResult) : Prop :=
  b.relevance_score ≤ a.relevance_score

instance : DecidableRel scoreDescOrder :=
  fun a b => inferInstanceAs (Decidable (b.relevance_score ≤ a.relevance_score))

instance : IsTotal SearchResult scoreDescOrder :=
  ⟨fun a b => le_total b.relevance_score a.relevance_score⟩

instance : IsTrans SearchResult scoreDescOrder :=
  ⟨fun _ _ _ h1 h2 => le_trans h2 h1⟩

/-- Path-token matches of one entry against the query words (lines 420-421). -/
def pathMatchCount (queryWords : List String) (path : String) : ℕ :=
  pySetIntersectionCard queryWords (pyFindWords (pyLower path))

/-- Tag-token matches of one entry against the query words (lines 425-426). -/
def tagMatchCount (queryWords : List String) (node : ConsciousnessNode) : ℕ :=
  pySetIntersectionCard queryWords
    (List.flatten (node.phenomenological_tags.map
      (fun tag => (pyFindWords tag).map pyLower)))

/-- Relevance score of one entry (lines 417-430):
`(2 × pathMatches + 3 × tagMatches) × weight`. -/
def relevanceScoreOf (queryWords : List String) (pn : String × ConsciousnessNode) : ℚ :=
  ((pathMatchCount queryWords pn.1 * 2 + tagMatchCount queryWords pn.2 * 3 : ℕ) : ℚ) *
    pn.2.ontological_weight

/-- Loop body of `search_consciousness` (lines 416-441): score an entry and
keep it when the score is strictly positive. -/
def scoreEntry (queryWords : List String) (pn : String × ConsciousnessNode) :
    Option SearchResult :=
  if 0 < relevanceScoreOf queryWords pn then
    some { path := pn.1, relevance_score := relevanceScoreOf queryWords pn,
           consciousness_node := pn.2,
           path_matches := pathMatchCount queryWords pn.1,
           tag_matches := tagMatchCount queryWords pn.2 }
  else none

/-- `search_consciousness` (lines 409-445): score each indexed entry by
`2 × path-token matches + 3 × tag-token matches` times its weight, keep the
strictly positive scores, sort descending (stably) and truncate. -/
def searchConsciousness (m : List (String × ConsciousnessNode)) (query : String)
    (maxResults : ℕ) : List SearchResult :=
  ((m.filterMap (scoreEntry (pyFindWords (pyLower query)))).insertionSort
    scoreDescOrder).take maxResults

/-! ## Pathway planner (gitsdx_consciousness_bridge.py) -/

/-- Value of one `experiential_context` entry of a pathway (the Python dicts
hold strings, integers, rationals and tag lists). -/
inductive CtxVal where
  | s (v : String)
  | i (v : ℕ)
  | q (v : ℚ)
  | ls (v : List String)
deriving DecidableEq

/-- The `ExperientialPathway` dataclass (lines 29-49). -/
structure ExperientialPathway where
  source_path : String
  target_path : String
  consciousness_weight : ℚ
  experiential_context : List (String × CtxVal)
  deployment_priority : ℕ
  phenomenological_dependencies : List String
deriving DecidableEq

/-- `_generate_pathway_signature` (lines 45-49) hashes
`source:target:weight` with sha256 and truncates; it is modelled by the
triple itself, an opaque deterministic identifier of the same data. -/
def pathwaySignature (pw : ExperientialPathway) : String × String × ℚ :=
  (pw.source_path, pw.target_path, pw.consciousness_weight)

/-- The planner state read by the four strategies: the indexer's
`ontological_map` and `experiential_clusters`. -/
structure IndexState where
  ontologicalMap : List (String × ConsciousnessNode)
  experientialClusters : List (String × List String)

/-- `_generate_preservation_target_path` (lines 224-232). -/
def generatePreservationTargetPath (sourcePath : String)
    (node : ConsciousnessNode) : String :=
  let consciousnessType := pyReplace (pyReplace node.content_type "consciousness" "") "_" ""
  "consciousness_preservation/" ++ consciousnessType ++ "/" ++ fileName sourcePath

/-- Number of tags shared by two entries, `len(set(a) & set(b))`
(line 245). -/
def sharedTagCount (a b : ConsciousnessNode) : ℕ :=
  pySetIntersectionCard a.phenomenological_tags b.phenomenological_tags

/-- `_find_consciousness_dependencies` (lines 234-249): the other indexed
entries sharing at least two tags with the looked-up source entry, in map
order, capped at 5. -/
def findConsciousnessDependencies (m : List (String × ConsciousnessNode))
    (sourcePath : String) : List String :=
  match m.lookup sourcePath with
  | none => []
  | some node =>
    (((m.filter (fun q => q.1 ≠ sourcePath ∧ 2 ≤ sharedTagCount node q.2)).map
      (fun q => q.1)).take 5)

/-- `_create_consciousness_preservation_pathways` (lines 93-122): one
priority-1 pathway for every entry whose confidence is at least 0.9. -/
def createConsciousnessPreservationPathways
    (m : List (String × ConsciousnessNode)) : List ExperientialPathway :=
  (m.filter (fun pn => (0.9 : ℚ) ≤ pn.2.epistemic_confidence)).map (fun pn =>
    { source_path := pn.1
      target_path := generatePreservationTargetPath pn.1 pn.2
      consciousness_weight := pn.2.ontological_weight
      experiential_context :=
        [("preservation_type", CtxVal.s "high_confidence_consciousness"),
         ("phenomenological_tags", CtxVal.ls pn.2.phenomenological_tags),
         ("epistemic_confidence", CtxVal.q pn.2.epistemic_confidence)]
      deployment_priority := 1
      phenomenological_dependencies := findConsciousnessDependencies m pn.1 })

/-- `_create_phenomenological_cluster_pathways` (lines 124-155): for every
cluster with at least 3 members, one priority-2 pathway per member found in
the map. -/
def createPhenomenologicalClusterPathways (idx : IndexState) :
    List ExperientialPathway :=
  List.flatten (idx.experientialClusters.map (fun cl =>
    if 3 ≤ cl.2.length then
      cl.2.filterMap (fun sourcePath =>
        match idx.ontologicalMap.lookup sourcePath with
        | some node =>
          some
            { source_path := sourcePath
              target_path := "consciousness_clusters/" ++ cl.1 ++ "/" ++ fileName sourcePath
              consciousness_weight := node.ontological_weight
              experiential_context :=
                [("cluster_name", CtxVal.s cl.1),
                 ("cluster_size", CtxVal.i cl.2.length),
                 ("phenomenological_resonance", CtxVal.ls node.phenomenological_tags)]
              deployment_priority := 2
              phenomenological_dependencies := [] }
        | none => none)
    else []))

/-- Descending-weight comparison for the per-depth sort of line 171. -/
def weightDescOrder (a b : String × ConsciousnessNode) : Prop :=
  b.2.ontological_weight ≤ a.2.ontological_weight

instance : DecidableRel weightDescOrder :=
  fun a b => inferInstanceAs (Decidable (b.2.ontological_weight ≤ a.2.ontological_weight))

/-- Depth band of `_create_ontological_hierarchy_pathways` (line 174). -/
def hierarchyLevelFor (depth : ℕ) : String :=
  if depth ≤ 1 then "foundational"
  else if depth ≤ 3 then "intermediate"
  else "specialized"

/-- `_create_ontological_hierarchy_pathways` (lines 157-193): bucket by
directory depth (first-appearance key order, as the Python dict), sort each
bucket by descending weight, emit one priority-3 pathway per entry with its
rank. -/
def createOntologicalHierarchyPathways (m : List (String × ConsciousnessNode)) :
    List ExperientialPathway :=
  let depths := dedupFirst (m.map (fun pn => pn.2.experiential_context.directory_depth))
  List.flatten (depths.map (fun depth =>
    let nodes :=
      (m.filter (fun pn => pn.2.experiential_context.directory_depth = depth)).insertionSort
        weightDescOrder
    nodes.enum.map (fun ipn =>
      { source_path := ipn.2.1
        target_path := "ontological_hierarchy/" ++ hierarchyLevelFor depth ++ "/" ++ fileName ipn.2.1
        consciousness_weight := ipn.2.2.ontological_weight
        experiential_context :=
          [("hierarchy_level", CtxVal.s (hierarchyLevelFor depth)),
           ("depth", CtxVal.i depth),
           ("weight_rank", CtxVal.i (ipn.1 + 1))]
        deployment_priority := 3
        phenomenological_dependencies := [] })))

/-- `_create_experiential_dependency_pathways` (lines 195-222): one
priority-4 pathway per entry with a non-empty neighbor list. -/
def createExperientialDependencyPathways (m : List (String × ConsciousnessNode)) :
    List ExperientialPathway :=
  m.filterMap (fun pn =>
    let neighbors := pn.2.experiential_context.experiential_neighbors
    if neighbors ≠ [] then
      some
        { source_path := pn.1
          target_path := "experiential_networks/" ++ fileStem pn.1 ++ "/" ++ fileName pn.1
          consciousness_weight := pn.2.ontological_weight
          experiential_context :=
            [("dependency_type", CtxVal.s "experiential_network"),
             ("neighbor_count", CtxVal.i neighbors.length),
             ("network_density",
              CtxVal.q ((neighbors.length : ℚ) / ((max m.length 1 : ℕ) : ℚ)))]
          deployment_priority := 4
          phenomenological_dependencies := neighbors }
    else none)

/-- The pathways appended by one `create_experiential_pathways` call, in the
strategy order of lines 77-82. -/
def newExperientialPathways (idx : IndexState) : List ExperientialPathway :=
  createConsciousnessPreservationPathways idx.ontologicalMap ++
    createPhenomenologicalClusterPathways idx ++
    createOntologicalHierarchyPathways idx.ontologicalMap ++
    createExperientialDependencyPathways idx.ontologicalMap

/-- Python dict assignment `self.ontological_map[node.path] = node`
(nexus_search_indexer.py line 289): an existing key keeps its position and
receives the new value; a new key is appended. -/
def assocUpdate (m : List (String × ConsciousnessNode)) (k : String)
    (v : ConsciousnessNode) : List (String × ConsciousnessNode) :=
  if m.any (fun pn => pn.1 == k) then
    m.map (fun pn => if pn.1 == k then (k, v) else pn)
  else m ++ [(k, v)]

/-- The defaultdict append
`self.experiential_clusters[tag].append(node.path)`
(nexus_search_indexer.py line 296): the tag's list grows by one path on
EVERY call, also on a re-run over the same tree. -/
def clusterAppend (cl : List (String × List String)) (tag path : String) :
    List (String × List String) :=
  if cl.any (fun c => c.1 == tag) then
    cl.map (fun c => if c.1 == tag then (c.1, c.2 ++ [path]) else c)
  else cl ++ [(tag, [path])]

/-- `_integrate_consciousness_node` (nexus_search_indexer.py lines 286-302)
restricted to the two structures the bridge reads: map assignment (key
overwrite) and cluster append per tag.  The trie and inverted-index
insertions are not consumed by the planner. -/
def integrateConsciousnessNode (st : IndexState) (node : ConsciousnessNode) :
    IndexState :=
  { ontologicalMap := assocUpdate st.ontologicalMap node.path node
    experientialClusters :=
      node.phenomenological_tags.foldl
        (fun cl tag => clusterAppend cl tag node.path) st.experientialClusters }

/-- `witness_repository_consciousness` (nexus_search_indexer.py lines 95-129)
as the state transformer it is on a live indexer instance: each run walks the
tree again and integrates every qualifying node into the EXISTING structures,
so map values are overwritten per key but every cluster list grows again. -/
def witnessRepositoryConsciousnessRun (root : String) (fs : List FSFile)
    (st : IndexState) : IndexState :=
  fs.foldl (fun acc f =>
    if visitedByWalk f && shouldIndexConsciousness (fullPathStr root f) then
      if epistemicConfidenceThreshold ≤
          (createConsciousnessNode root fs f).epistemic_confidence then
        integrateConsciousnessNode acc (createConsciousnessNode root fs f)
      else acc
    else acc) st

/-- State of a `ConsciousnessRefactorer` instance: its shared indexer's
accumulated structures and `self.experiential_pathways`. -/
structure RefactorerState where
  indexerState : IndexState
  experientialPathways : List ExperientialPathway

/-- `create_experiential_pathways` (gitsdx_consciousness_bridge.py lines
66-91) as the state transformer on the refactorer instance: line 74 re-runs
`witness_repository_consciousness` on the shared indexer (mutating it), then
the four strategies read the re-indexed state and append their pathways to
`self.experiential_pathways`, which is never cleared. -/
def createExperientialPathwaysRun (root : String) (fs : List FSFile)
    (st : RefactorerState) : RefactorerState :=
  { indexerState := witnessRepositoryConsciousnessRun root fs st.indexerState
    experientialPathways := st.experientialPathways ++
      newExperientialPathways
        (witnessRepositoryConsciousnessRun root fs st.indexerState) }

/-! ## Reorganization executor (gitsdx_consciousness_bridge.py, lines 275-340) -/

/-- Target-side filesystem state: files (path, content) and directories. -/
structure PyFileSystem where
  files : List (String × ℕ)
  dirs : List String
deriving DecidableEq

/-- Parent directory of a `/`-separated path. -/
def parentDirOf (p : String) : String := joinSlash ((pyParts p).dropLast)

/-- All ancestor prefixes of a directory path, shortest first. -/
def ancestorDirs (d : String) : List String :=
  let parts := pyParts d
  (List.range parts.length).map (fun i => joinSlash (parts.take (i + 1)))

/-- `mkdir(parents=True, exist_ok=True)`. -/
def mkdirParents (fs : PyFileSystem) (d : String) : PyFileSystem :=
  { fs with dirs := fs.dirs ++ ((ancestorDirs d).filter (fun x => ¬ fs.dirs.contains x)) }

/-- `shutil.copy2(src, tgt)` for a file: overwrite or create the target. -/
def copyFile (fs : PyFileSystem) (src tgt : String) : PyFileSystem :=
  match fs.files.lookup src with
  | none => fs
  | some content =>
    { fs with files := (fs.files.filter (fun pc => pc.1 ≠ tgt)) ++ [(tgt, content)] }

/-- `shutil.copytree(src, tgt, dirs_exist_ok=True)`: recursive merge that
overwrites conflicting target entries and keeps the rest. -/
def copyTree (fs : PyFileSystem) (src tgt : String) : PyFileSystem :=
  let moved := fs.files.filterMap (fun pc =>
    if pyStartsWith pc.1 (src ++ "/") then
      some (String.mk (tgt.data ++ pc.1.data.drop src.data.length), pc.2)
    else none)
  { files := (fs.files.filter (fun pc => ¬ (moved.map (fun q => q.1)).contains pc.1)) ++ moved
    dirs := fs.dirs ++ (if ¬ fs.dirs.contains tgt then [tgt] else []) }

/-- One entry of `refactor_results["pathway_executions"]` (lines 311-317). -/
structure ExecutionResult where
  pathway_signature : String × String × ℚ
  source : String
  target : String
  consciousness_weight : ℚ
  status : String
deriving DecidableEq

/-- `_execute_pathway` (lines 306-340): in dry-run mode only the result
record is produced; otherwise the target's parent directory is created, a
present source is copied (file copy or recursive tree merge) with status
`success`, and a missing source is recorded as `source_not_found`. -/
def executePathway (repoRoot targetRoot : String) (dryRun : Bool)
    (fs : PyFileSystem) (pw : ExperientialPathway) :
    PyFileSystem × ExecutionResult :=
  let sourcePath := repoRoot ++ "/" ++ pw.source_path
  let targetPath := targetRoot ++ "/" ++ pw.target_path
  let base : ExecutionResult :=
    { pathway_signature := pathwaySignature pw, source := sourcePath,
      target := targetPath, consciousness_weight := pw.consciousness_weight,
      status := "pending" }
  if dryRun then (fs, { base with status := "dry_run_success" })
  else
    let fs1 := mkdirParents fs (parentDirOf targetPath)
    if fs1.files.any (fun pc => pc.1 = sourcePath) then
      (copyFile fs1 sourcePath targetPath, { base with status := "success" })
    else if fs1.dirs.contains sourcePath then
      (copyTree fs1 sourcePath targetPath, { base with status := "success" })
    else (fs1, { base with status := "source_not_found" })

/-- Ascending-priority comparison for the stable sort of line 293. -/
def priorityAscOrder (a b : ExperientialPathway) : Prop :=
  a.deployment_priority ≤ b.deployment_priority

instance : DecidableRel priorityAscOrder :=
  fun a b => inferInstanceAs (Decidable (a.deployment_priority ≤ b.deployment_priority))

/-- One step of the execution loop of lines 295-297. -/
def executeStep (repoRoot targetRoot : String) (dryRun : Bool)
    (st : PyFileSystem × List ExecutionResult) (pw : ExperientialPathway) :
    PyFileSystem × List ExecutionResult :=
  let pr := executePathway repoRoot targetRoot dryRun st.1 pw
  (pr.1, st.2 ++ [pr.2])

/-- `execute_consciousness_refactoring` (lines 275-304) restricted to its
filesystem effect and `pathway_executions` list: create the target root
unless dry-running, then execute the pathways sorted by ascending priority
(stable, preserving generation order). -/
def executeConsciousnessRefactoring (repoRoot : String)
    (pathways : List ExperientialPathway) (targetDirectory : String)
    (dryRun : Bool) (fs : PyFileSystem) :
    PyFileSystem × List ExecutionResult :=
  let fs0 := if dryRun then fs else mkdirParents fs targetDirectory
  (pathways.insertionSort priorityAscOrder).foldl
    (executeStep repoRoot targetDirectory dryRun) (fs0, [])

/-! ## Validator (gitsdx_consciousness_bridge.py, lines 342-367) -/

/-- The report dictionary of `_validate_consciousness_preservation`; fields
absent from a branch's dictionary are `none`. -/
structure ValidationReport where
  validation_status : String
  original_consciousness_nodes : Option ℕ
  target_consciousness_nodes : Option ℕ
  preservation_ratio_value : Option ℚ
  preservation_quality : Option String
deriving DecidableEq

/-- The `preservation_ratio` of line 355: `targetCount / max(originalCount, 1)`. -/
def preservationRatioOf (originalCount targetCount : ℕ) : ℚ :=
  (targetCount : ℚ) / ((max originalCount 1 : ℕ) : ℚ)

/-- Quality grading of lines 362-364. -/
def preservationQualityOf (r : ℚ) : String :=
  if (0.95 : ℚ) ≤ r then "excellent"
  else if (0.85 : ℚ) ≤ r then "good"
  else "needs_attention"

/-- `_validate_consciousness_preservation` (lines 342-367): skipped when
dry-running; `target_not_found` when the target root does not exist (no
re-index happens); otherwise re-index the target tree, compute
`targetCount / max(originalCount, 1)` and grade it.  `originalCount` is
`len(self.consciousness_indexer.ontological_map)`; a missing target
filesystem is `none`. -/
def validateConsciousnessPreservation (originalCount : ℕ)
    (targetFS : Option (List FSFile)) (targetRootName : String)
    (dryRun : Bool) : ValidationReport :=
  if dryRun then ⟨"dry_run_skipped", none, none, none, none⟩
  else
    match targetFS with
    | some tfs =>
      ⟨"completed", some originalCount,
        some (witnessRepositoryConsciousness targetRootName tfs).length,
        some (preservationRatioOf originalCount
          (witnessRepositoryConsciousness targetRootName tfs).length),
        some (preservationQualityOf (preservationRatioOf originalCount
          (witnessRepositoryConsciousness targetRootName tfs).length))⟩
    | none => ⟨"target_not_found", none, none, none, none⟩

/-! ## Formulas as the claims word them, for comparison with the source -/

/-- Modelled from claim C2's wording of the confidence formula: the
`0.05 × min(tagCount, 5)` term is added for every tag count. -/
def confidenceSpecC2 (existsNonzero : Bool) (weight : ℚ) (tagCount : ℕ)
    (patentInPath : Bool) : ℚ :=
  min 1 (0.7 + (if existsNonzero then (0.1 : ℚ) else 0)
    + (if (0.3 : ℚ) < weight then (0.1 : ℚ) else 0)
    + 0.05 * ((min tagCount 5 : ℕ) : ℚ)
    + (if patentInPath then (0.1 : ℚ) else 0))

/-- Modelled from claim C3's wording of the weight formula: `keywordHits`
counts every occurrence of every keyword in the lower-cased full path. -/
def weightSpecC3 (fullStr : String) : ℚ :=
  max 0 (min (0.1 * multiplierFor (pyLower (pathSuffix fullStr)) +
    0.1 * (((consciousnessAmplifiers.map
      (fun k => countOccurrences k (pyLower fullStr))).sum : ℕ) : ℚ)) 1)

/-- Number of distinct amplifier keywords contained in the lower-cased full
path: the hit count the source actually uses (one membership test per
keyword, line 200-202). -/
def keywordHitCount (fullStr : String) : ℕ :=
  consciousnessAmplifiers.countP (fun k => pyContains (pyLower fullStr) k)

/-! ## Concrete inputs used by witnesses and counterexamples -/

/-- A file whose annotation reaches confidence 1: three amplifier keywords
and nine tags. -/
def exampleHighFile : FSFile :=
  { dirs := [], fname := "patent_bayesian_consciousness.md", size := 1, mtime := 0 }

/-- Claim C2's counterexample file: exactly one tag (`visual_consciousness`
from the `images` directory), no keyword. -/
def cexC2File : FSFile :=
  { dirs := ["images"], fname := "foo.md", size := 5, mtime := 0 }

/-- A file listed by the walk but vanished before annotation (its stat data
is whatever the walk would have seen; the stat call itself fails). -/
def vanishedFile : FSFile :=
  { dirs := ["patent"], fname := "spec.md", size := 0, mtime := 0 }

/-- A synthetic indexed entry with a chosen confidence and tag set. -/
def exampleNode (p : String) (conf : ℚ) (tags : List String) : ConsciousnessNode :=
  { path := p, content_type := "structured_consciousness_text",
    ontological_weight := 0.5, phenomenological_tags := tags,
    experiential_context :=
      { directory_depth := 1, file_size := 1, modification_time := 0,
        experiential_neighbors := [] },
    temporal_signature := 0, epistemic_confidence := conf }

/-- Claim C8's scenario map: five entries at confidence 0.95 and one at 0.5. -/
def exampleC8Map : List (String × ConsciousnessNode) :=
  [("p1.md", exampleNode "p1.md" 0.95 ["a", "b"]),
   ("p2.md", exampleNode "p2.md" 0.95 ["a", "b"]),
   ("p3.md", exampleNode "p3.md" 0.95 ["c"]),
   ("p4.md", exampleNode "p4.md" 0.95 []),
   ("p5.md", exampleNode "p5.md" 0.95 ["a"]),
   ("p6.md", exampleNode "p6.md" 0.5 ["a", "b"])]

/-- Claim C9's scenario: three sibling files whose names carry three
keywords (patent, epistemic, obicall — weight 0.38) and one tag pattern
(patent — three tags, confidence 1), so all three are indexed and share a
three-member cluster per tag. -/
def fC9a : FSFile :=
  { dirs := [], fname := "patent_epistemic_obicall_a.md", size := 1, mtime := 0 }

/-- Second file of claim C9's scenario. -/
def fC9b : FSFile :=
  { dirs := [], fname := "patent_epistemic_obicall_b.md", size := 1, mtime := 0 }

/-- Third file of claim C9's scenario. -/
def fC9c : FSFile :=
  { dirs := [], fname := "patent_epistemic_obicall_c.md", size := 1, mtime := 0 }

/-- The scanned tree of claim C9's scenario. -/
def fsC9 : List FSFile := [fC9a, fC9b, fC9c]

/-- The ontological map after any number of runs over `fsC9` (values are
overwritten per key, so it is stable). -/
def mapC9 : List (String × ConsciousnessNode) :=
  [("patent_epistemic_obicall_a.md", createConsciousnessNode "repo" fsC9 fC9a),
   ("patent_epistemic_obicall_b.md", createConsciousnessNode "repo" fsC9 fC9b),
   ("patent_epistemic_obicall_c.md", createConsciousnessNode "repo" fsC9 fC9c)]

/-- Indexer state after the first run over `fsC9`: every cluster has the
three member paths once. -/
def stateC9one : IndexState :=
  { ontologicalMap := mapC9
    experientialClusters :=
      [("intellectual_property",
        ["patent_epistemic_obicall_a.md", "patent_epistemic_obicall_b.md",
         "patent_epistemic_obicall_c.md"]),
       ("innovation_protection",
        ["patent_epistemic_obicall_a.md", "patent_epistemic_obicall_b.md",
         "patent_epistemic_obicall_c.md"]),
       ("technical_specification",
        ["patent_epistemic_obicall_a.md", "patent_epistemic_obicall_b.md",
         "patent_epistemic_obicall_c.md"])] }

/-- Indexer state after the second run over `fsC9`: the map is unchanged but
every cluster list has been appended to again and holds each member twice. -/
def stateC9two : IndexState :=
  { ontologicalMap := mapC9
    experientialClusters :=
      [("intellectual_property",
        ["patent_epistemic_obicall_a.md", "patent_epistemic_obicall_b.md",
         "patent_epistemic_obicall_c.md", "patent_epistemic_obicall_a.md",
         "patent_epistemic_obicall_b.md", "patent_epistemic_obicall_c.md"]),
       ("innovation_protection",
        ["patent_epistemic_obicall_a.md", "patent_epistemic_obicall_b.md",
         "patent_epistemic_obicall_c.md", "patent_epistemic_obicall_a.md",
         "patent_epistemic_obicall_b.md", "patent_epistemic_obicall_c.md"]),
       ("technical_specification",
        ["patent_epistemic_obicall_a.md", "patent_epistemic_obicall_b.md",
         "patent_epistemic_obicall_c.md", "patent_epistemic_obicall_a.md",
         "patent_epistemic_obicall_b.md", "patent_epistemic_obicall_c.md"])] }

/-- A freshly constructed refactorer: empty indexer structures, no
pathways. -/
def initC9 : RefactorerState :=
  { indexerState := { ontologicalMap := [], experientialClusters := [] }
    experientialPathways := [] }

/-! ## Helper lemmas -/

/-- Folding `+0.1`-per-hit over a list adds `0.1` times the hit count. -/
theorem foldl_addTenth_countP (p : String → Bool) (l : List String) (w : ℚ) :
    l.foldl (fun acc a => if p a then acc + 0.1 else acc) w =
      w + 0.1 * (l.countP p : ℚ) := by
  induction l generalizing w with
  | nil => simp
  | cons a t ih =>
    simp only [List.foldl_cons, List.countP_cons, ih]
    by_cases h : p a = true
    · simp only [h, if_true]
      push_cast
      ring
    · simp [h]

/-- Closed form of the weight computation: `0.1 × multiplier` plus `0.1`
times the number of distinct keywords present, capped at 1. -/
theorem computeOntologicalWeight_eq (fullStr : String) :
    computeOntologicalWeight fullStr =
      min (0.1 * multiplierFor (pyLower (pathSuffix fullStr)) +
        0.1 * (keywordHitCount fullStr : ℚ)) 1 := by
  simp only [computeOntologicalWeight, keywordHitCount]
  rw [foldl_addTenth_countP]

/-- Every entry of the multiplier table is nonnegative. -/
theorem multiplierFor_nonneg (s : String) : 0 ≤ multiplierFor s := by
  unfold multiplierFor
  split_ifs <;> norm_num

/-- Closed form of the confidence computation, with the source's
`tagCount > 2` guard on the tag term. -/
theorem computeEpistemicConfidence_eq (fullStr : String) (fileExists : Bool)
    (fileSize : ℕ) (weight : ℚ) (tags : List String) :
    computeEpistemicConfidence fullStr fileExists fileSize weight tags =
      min 1 (0.7 + (if fileExists ∧ 0 < fileSize then (0.1 : ℚ) else 0)
        + (if (0.3 : ℚ) < weight then (0.1 : ℚ) else 0)
        + (if 2 < tags.length then (0.05 : ℚ) * ((min tags.length 5 : ℕ) : ℚ) else 0)
        + (if pyContains (pyLower fullStr) "patent" then (0.1 : ℚ) else 0)) := by
  unfold computeEpistemicConfidence ontologicalWeightThreshold
  rw [min_comm]
  split_ifs <;> ring_nf

/-- The confidence field of an annotated node, unfolded. -/
theorem createConsciousnessNode_confidence (root : String) (fs : List FSFile)
    (f : FSFile) :
    (createConsciousnessNode root fs f).epistemic_confidence =
      computeEpistemicConfidence (fullPathStr root f) true f.size
        (computeOntologicalWeight (fullPathStr root f))
        (extractPhenomenologicalTags (fullPathStr root f)) := rfl

/-- The tags field of an annotated node, unfolded. -/
theorem createConsciousnessNode_tags (root : String) (fs : List FSFile)
    (f : FSFile) :
    (createConsciousnessNode root fs f).phenomenological_tags =
      extractPhenomenologicalTags (fullPathStr root f) := rfl

/-- The weight field of an annotated node, unfolded. -/
theorem createConsciousnessNode_weight (root : String) (fs : List FSFile)
    (f : FSFile) :
    (createConsciousnessNode root fs f).ontological_weight =
      computeOntologicalWeight (fullPathStr root f) := rfl

/-- Weight of the claim C2 counterexample file. -/
theorem cexC2File_weight :
    computeOntologicalWeight (fullPathStr "repo" cexC2File) = 0.08 := by
  rw [computeOntologicalWeight_eq]
  rw [show pyLower (pathSuffix (fullPathStr "repo" cexC2File)) = ".md" from by decide]
  rw [show keywordHitCount (fullPathStr "repo" cexC2File) = 0 from by decide]
  rw [show multiplierFor ".md" = 0.8 from by simp [multiplierFor]]
  rw [min_eq_left (by norm_num)]
  norm_num

/-- Confidence of the claim C2 counterexample file as the source computes
it: 0.8, because the single tag does not pass the `len(tags) > 2` guard. -/
theorem cexC2File_confidence :
    (createConsciousnessNode "repo" [cexC2File] cexC2File).epistemic_confidence = 0.8 := by
  rw [createConsciousnessNode_confidence, computeEpistemicConfidence_eq, cexC2File_weight]
  rw [show extractPhenomenologicalTags (fullPathStr "repo" cexC2File) =
    ["visual_consciousness"] from by decide]
  rw [show pyContains (pyLower (fullPathStr "repo" cexC2File)) "patent" = false from by decide]
  norm_num [cexC2File]

/-! ## Claim C2 -/

/-- C2, counterexample.  The claim states the `0.05 × min(tagCount, 5)` term
is added for every tag count, including tag counts of 1 and 2.  For the file
`repo/images/foo.md` (one tag, `visual_consciousness`) the source computes
confidence 0.8, while the claim's formula gives 0.85. -/
theorem spec2proof_C2_counterexample :
    (createConsciousnessNode "repo" [cexC2File] cexC2File).phenomenological_tags.length = 1 ∧
    (createConsciousnessNode "repo" [cexC2File] cexC2File).epistemic_confidence = 0.8 ∧
    confidenceSpecC2 true
      (createConsciousnessNode "repo" [cexC2File] cexC2File).ontological_weight
      (createConsciousnessNode "repo" [cexC2File] cexC2File).phenomenological_tags.length
      false = 0.85 ∧
    (createConsciousnessNode "repo" [cexC2File] cexC2File).epistemic_confidence ≠
      confidenceSpecC2 true
        (createConsciousnessNode "repo" [cexC2File] cexC2File).ontological_weight
        (createConsciousnessNode "repo" [cexC2File] cexC2File).phenomenological_tags.length
        false := by
  have htags : (createConsciousnessNode "repo" [cexC2File] cexC2File).phenomenological_tags =
      ["visual_consciousness"] := by
    rw [createConsciousnessNode_tags]
    decide
  have hspec : confidenceSpecC2 true
      (createConsciousnessNode "repo" [cexC2File] cexC2File).ontological_weight
      (createConsciousnessNode "repo" [cexC2File] cexC2File).phenomenological_tags.length
      false = 0.85 := by
    rw [htags, createConsciousnessNode_weight, cexC2File_weight]
    unfold confidenceSpecC2
    norm_num
  refine ⟨by rw [htags]; rfl, cexC2File_confidence, hspec, ?_⟩
  rw [cexC2File_confidence, hspec]
  norm_num

/-- C2, amended: the confidence score equals
`min(1.0, 0.7 + 0.1·[exists ∧ size>0] + 0.1·[weight>0.3]
 + 0.05×min(tagCount,5)·[tagCount>2] + 0.1·[patent in path])` — the
`0.05 × min(tagCount, 5)` term is added only when the tag count exceeds 2. -/
theorem spec2proof_C2 (fullStr : String) (fileExists : Bool) (fileSize : ℕ)
    (weight : ℚ) (tags : List String) :
    computeEpistemicConfidence fullStr fileExists fileSize weight tags =
      min 1 (0.7 + (if fileExists ∧ 0 < fileSize then (0.1 : ℚ) else 0)
        + (if (0.3 : ℚ) < weight then (0.1 : ℚ) else 0)
        + (if 2 < tags.length then (0.05 : ℚ) * ((min tags.length 5 : ℕ) : ℚ) else 0)
        + (if pyContains (pyLower fullStr) "patent" then (0.1 : ℚ) else 0)) :=
  computeEpistemicConfidence_eq fullStr fileExists fileSize weight tags

/-! ## Claim C3 -/

/-- C3, counterexample.  The claim states a keyword occurring more than once
contributes +0.1 per occurrence.  In `repo/patent/patent_a.md` the keyword
`patent` occurs twice; the source computes weight 0.18 (one membership hit),
the claim's occurrence-counting formula gives 0.28. -/
theorem spec2proof_C3_counterexample :
    computeOntologicalWeight "repo/patent/patent_a.md" = 0.18 ∧
    weightSpecC3 "repo/patent/patent_a.md" = 0.28 ∧
    computeOntologicalWeight "repo/patent/patent_a.md" ≠
      weightSpecC3 "repo/patent/patent_a.md" := by
  have h1 : computeOntologicalWeight "repo/patent/patent_a.md" = 0.18 := by
    rw [computeOntologicalWeight_eq]
    rw [show pyLower (pathSuffix "repo/patent/patent_a.md") = ".md" from by decide]
    rw [show keywordHitCount "repo/patent/patent_a.md" = 1 from by decide]
    rw [show multiplierFor ".md" = 0.8 from by simp [multiplierFor]]
    rw [min_eq_left (by norm_num)]
    norm_num
  have h2 : weightSpecC3 "repo/patent/patent_a.md" = 0.28 := by
    unfold weightSpecC3
    rw [show pyLower (pathSuffix "repo/patent/patent_a.md") = ".md" from by decide]
    rw [show (consciousnessAmplifiers.map
      (fun k => countOccurrences k (pyLower "repo/patent/patent_a.md"))).sum = 2 from by decide]
    rw [show multiplierFor ".md" = 0.8 from by simp [multiplierFor]]
    rw [min_eq_left (by norm_num), max_eq_right (by norm_num)]
    norm_num
  exact ⟨h1, h2, by rw [h1, h2]; norm_num⟩

/-- C3, amended: the weight equals
`clamp(0.1 × extensionMultiplier(ext) + 0.1 × keywordHits, 0, 1)` where
`keywordHits` counts the distinct members of the keyword list contained in
the lower-cased full path — each keyword contributes +0.1 at most once,
regardless of how often it occurs. -/
theorem spec2proof_C3 (fullStr : String) :
    computeOntologicalWeight fullStr =
      max 0 (min (0.1 * multiplierFor (pyLower (pathSuffix fullStr)) +
        0.1 * (keywordHitCount fullStr : ℚ)) 1) := by
  rw [computeOntologicalWeight_eq, max_eq_right]
  apply le_min
  · have h1 := multiplierFor_nonneg (pyLower (pathSuffix fullStr))
    have h2 : (0 : ℚ) ≤ (keywordHitCount fullStr : ℚ) := Nat.cast_nonneg _
    nlinarith
  · norm_num

/-! ## Claim C4 -/

/-- C4, the code bug.  The spec requires a stat failure during annotation to
degrade to size/mtime 0 and proceed, and lines 157-158 guard exactly that
way, but the `temporal_signature` argument (line 173) calls
`full_path.stat()` unguarded: annotating a vanished file raises
`FileNotFoundError` instead of producing a node. -/
theorem spec2proof_C4 :
    createConsciousnessNodeChecked "repo" [] vanishedFile none =
      Except.error "FileNotFoundError" := rfl

/-! ## Claim C10 -/

/-- C10: in non-dry-run mode with a missing target root, validation reports
exactly `target_not_found` — no counts, no ratio, no quality verdict, and no
re-index of the (non-existent) target tree. -/
theorem spec2proof_C10 (originalCount : ℕ) (targetRootName : String) :
    validateConsciousnessPreservation originalCount none targetRootName false =
      { validation_status := "target_not_found",
        original_consciousness_nodes := none,
        target_consciousness_nodes := none,
        preservation_ratio_value := none,
        preservation_quality := none } := rfl

/-! ## Dry-run execution helpers and claim C6 -/

/-- Folding the dry-run execution step leaves the filesystem untouched and
appends one result per pathway. -/
theorem executeStep_dryRun_foldl (repoRoot targetDir : String)
    (l : List ExperientialPathway) (fs : PyFileSystem)
    (acc : List ExecutionResult) :
    l.foldl (executeStep repoRoot targetDir true) (fs, acc) =
      (fs, acc ++ l.map (fun pw => (executePathway repoRoot targetDir true fs pw).2)) := by
  induction l generalizing acc with
  | nil => simp
  | cons a tl ih =>
    rw [List.foldl_cons,
      show executeStep repoRoot targetDir true (fs, acc) a =
        (fs, acc ++ [(executePathway repoRoot targetDir true fs a).2]) from rfl,
      ih]
    simp

/-- A dry-run execution returns exactly one result per pathway. -/
theorem dryRun_executions_length (repoRoot targetDir : String)
    (pathways : List ExperientialPathway) (fs : PyFileSystem) :
    (executeConsciousnessRefactoring repoRoot pathways targetDir true fs).2.length =
      pathways.length := by
  unfold executeConsciousnessRefactoring
  rw [if_pos rfl, executeStep_dryRun_foldl]
  simp only [List.nil_append, List.length_map]
  exact (List.perm_insertionSort priorityAscOrder pathways).length_eq

/-- C6: dry-run execution performs no filesystem mutation and returns one
result per pathway, each with status `dry_run_success`. -/
theorem spec2proof_C6 (repoRoot targetDir : String)
    (pathways : List ExperientialPathway) (fs : PyFileSystem) :
    (executeConsciousnessRefactoring repoRoot pathways targetDir true fs).1 = fs ∧
    (executeConsciousnessRefactoring repoRoot pathways targetDir true fs).2.length =
      pathways.length ∧
    ∀ r ∈ (executeConsciousnessRefactoring repoRoot pathways targetDir true fs).2,
      r.status = "dry_run_success" := by
  refine ⟨?_, dryRun_executions_length repoRoot targetDir pathways fs, ?_⟩
  · unfold executeConsciousnessRefactoring
    rw [if_pos rfl, executeStep_dryRun_foldl]
  · intro r hr
    unfold executeConsciousnessRefactoring at hr
    rw [if_pos rfl, executeStep_dryRun_foldl] at hr
    simp only [List.nil_append, List.mem_map] at hr
    obtain ⟨pw, _, hpw⟩ := hr
    rw [← hpw]
    rfl

/-! ## Claim C9 -/

/-- Weight of the first claim C9 file: `.md` multiplier plus three keyword
hits (patent, epistemic, obicall). -/
theorem weightC9a : computeOntologicalWeight (fullPathStr "repo" fC9a) = 0.38 := by
  rw [computeOntologicalWeight_eq]
  rw [show pyLower (pathSuffix (fullPathStr "repo" fC9a)) = ".md" from by decide]
  rw [show keywordHitCount (fullPathStr "repo" fC9a) = 3 from by decide]
  rw [show multiplierFor ".md" = 0.8 from by simp [multiplierFor]]
  rw [min_eq_left (by norm_num)]
  norm_num

/-- Weight of the second claim C9 file. -/
theorem weightC9b : computeOntologicalWeight (fullPathStr "repo" fC9b) = 0.38 := by
  rw [computeOntologicalWeight_eq]
  rw [show pyLower (pathSuffix (fullPathStr "repo" fC9b)) = ".md" from by decide]
  rw [show keywordHitCount (fullPathStr "repo" fC9b) = 3 from by decide]
  rw [show multiplierFor ".md" = 0.8 from by simp [multiplierFor]]
  rw [min_eq_left (by norm_num)]
  norm_num

/-- Weight of the third claim C9 file. -/
theorem weightC9c : computeOntologicalWeight (fullPathStr "repo" fC9c) = 0.38 := by
  rw [computeOntologicalWeight_eq]
  rw [show pyLower (pathSuffix (fullPathStr "repo" fC9c)) = ".md" from by decide]
  rw [show keywordHitCount (fullPathStr "repo" fC9c) = 3 from by decide]
  rw [show multiplierFor ".md" = 0.8 from by simp [multiplierFor]]
  rw [min_eq_left (by norm_num)]
  norm_num

/-- Confidence of the first claim C9 file is 1 (all four bonuses apply). -/
theorem confC9a :
    (createConsciousnessNode "repo" fsC9 fC9a).epistemic_confidence = 1 := by
  rw [createConsciousnessNode_confidence, computeEpistemicConfidence_eq, weightC9a]
  rw [show (extractPhenomenologicalTags (fullPathStr "repo" fC9a)).length = 3 from by decide]
  rw [show pyContains (pyLower (fullPathStr "repo" fC9a)) "patent" = true from by decide]
  norm_num [fC9a, min_def]

/-- Confidence of the second claim C9 file is 1. -/
theorem confC9b :
    (createConsciousnessNode "repo" fsC9 fC9b).epistemic_confidence = 1 := by
  rw [createConsciousnessNode_confidence, computeEpistemicConfidence_eq, weightC9b]
  rw [show (extractPhenomenologicalTags (fullPathStr "repo" fC9b)).length = 3 from by decide]
  rw [show pyContains (pyLower (fullPathStr "repo" fC9b)) "patent" = true from by decide]
  norm_num [fC9b, min_def]

/-- Confidence of the third claim C9 file is 1. -/
theorem confC9c :
    (createConsciousnessNode "repo" fsC9 fC9c).epistemic_confidence = 1 := by
  rw [createConsciousnessNode_confidence, computeEpistemicConfidence_eq, weightC9c]
  rw [show (extractPhenomenologicalTags (fullPathStr "repo" fC9c)).length = 3 from by decide]
  rw [show pyContains (pyLower (fullPathStr "repo" fC9c)) "patent" = true from by decide]
  norm_num [fC9c, min_def]

/-- One indexing run over the claim C9 tree integrates exactly its three
(qualifying) files, in walk order, into whatever state the indexer holds. -/
theorem runC9_eq (st : IndexState) :
    witnessRepositoryConsciousnessRun "repo" fsC9 st =
      integrateConsciousnessNode (integrateConsciousnessNode
        (integrateConsciousnessNode st (createConsciousnessNode "repo" fsC9 fC9a))
        (createConsciousnessNode "repo" fsC9 fC9b))
        (createConsciousnessNode "repo" fsC9 fC9c) := by
  show List.foldl (fun acc f =>
      if visitedByWalk f && shouldIndexConsciousness (fullPathStr "repo" f) then
        if epistemicConfidenceThreshold <=
            (createConsciousnessNode "repo" fsC9 f).epistemic_confidence then
          integrateConsciousnessNode acc (createConsciousnessNode "repo" fsC9 f)
        else acc
      else acc) st [fC9a, fC9b, fC9c] = _
  simp only [List.foldl_cons, List.foldl_nil]
  rw [if_pos (show (visitedByWalk fC9a &&
        shouldIndexConsciousness (fullPathStr "repo" fC9a)) = true from by decide),
    if_pos (show epistemicConfidenceThreshold <=
        (createConsciousnessNode "repo" fsC9 fC9a).epistemic_confidence from by
      rw [confC9a]; unfold epistemicConfidenceThreshold; norm_num),
    if_pos (show (visitedByWalk fC9b &&
        shouldIndexConsciousness (fullPathStr "repo" fC9b)) = true from by decide),
    if_pos (show epistemicConfidenceThreshold <=
        (createConsciousnessNode "repo" fsC9 fC9b).epistemic_confidence from by
      rw [confC9b]; unfold epistemicConfidenceThreshold; norm_num),
    if_pos (show (visitedByWalk fC9c &&
        shouldIndexConsciousness (fullPathStr "repo" fC9c)) = true from by decide),
    if_pos (show epistemicConfidenceThreshold <=
        (createConsciousnessNode "repo" fsC9 fC9c).epistemic_confidence from by
      rw [confC9c]; unfold epistemicConfidenceThreshold; norm_num)]

/-- The first run from a fresh indexer produces `stateC9one`. -/
theorem runC9_empty :
    witnessRepositoryConsciousnessRun "repo" fsC9
      { ontologicalMap := [], experientialClusters := [] } = stateC9one := by
  rw [runC9_eq]
  rfl

/-- The second run overwrites the map values in place but appends every
cluster member again, producing `stateC9two`. -/
theorem runC9_again :
    witnessRepositoryConsciousnessRun "repo" fsC9 stateC9one = stateC9two := by
  rw [runC9_eq]
  rfl

/-- The hierarchy strategy emits one pathway per entry of each depth bucket
(sorting does not change bucket sizes). -/
theorem hierarchy_length (m : List (String × ConsciousnessNode)) :
    (createOntologicalHierarchyPathways m).length =
      ((dedupFirst (m.map (fun pn => pn.2.experiential_context.directory_depth))).map
        (fun depth => (m.filter (fun pn =>
          pn.2.experiential_context.directory_depth = depth)).length)).sum := by
  simp only [createOntologicalHierarchyPathways]
  rw [List.length_flatten, List.map_map]
  congr 1
  apply List.map_congr_left
  intro depth _
  dsimp only [Function.comp]
  rw [List.length_map, List.enum_length]
  exact (List.perm_insertionSort weightDescOrder _).length_eq

/-- The preservation strategy emits one pathway per C9 entry (all three have
confidence 1). -/
theorem preservationC9_length :
    (createConsciousnessPreservationPathways mapC9).length = 3 := by
  unfold createConsciousnessPreservationPathways mapC9
  rw [List.length_map]
  simp only [List.filter_cons, List.filter_nil, confC9a, confC9b, confC9c,
    decide_eq_true_eq]
  norm_num

/-- One planning call over the first-run state emits 18 pathways:
3 preservation + 9 clustering (three 3-member clusters) + 3 hierarchy +
3 dependency. -/
theorem newPathwaysC9one_length :
    (newExperientialPathways stateC9one).length = 18 := by
  unfold newExperientialPathways
  rw [List.length_append, List.length_append, List.length_append]
  rw [show stateC9one.ontologicalMap = mapC9 from rfl]
  rw [preservationC9_length]
  rw [show (createPhenomenologicalClusterPathways stateC9one).length = 9 from by decide]
  rw [hierarchy_length]
  rw [show ((dedupFirst (mapC9.map (fun pn =>
      pn.2.experiential_context.directory_depth))).map
      (fun depth => (mapC9.filter (fun pn =>
        pn.2.experiential_context.directory_depth = depth)).length)).sum = 3 from by decide]
  rw [show (createExperientialDependencyPathways mapC9).length = 3 from by decide]

/-- One planning call over the second-run state emits 27 pathways: the three
clusters now have 6 members each, so clustering contributes 18 instead
of 9. -/
theorem newPathwaysC9two_length :
    (newExperientialPathways stateC9two).length = 27 := by
  unfold newExperientialPathways
  rw [List.length_append, List.length_append, List.length_append]
  rw [show stateC9two.ontologicalMap = mapC9 from rfl]
  rw [preservationC9_length]
  rw [show (createPhenomenologicalClusterPathways stateC9two).length = 18 from by decide]
  rw [hierarchy_length]
  rw [show ((dedupFirst (mapC9.map (fun pn =>
      pn.2.experiential_context.directory_depth))).map
      (fun depth => (mapC9.filter (fun pn =>
        pn.2.experiential_context.directory_depth = depth)).length)).sum = 3 from by decide]
  rw [show (createExperientialDependencyPathways mapC9).length = 3 from by decide]

/-- C9, counterexample.  The claim says that after two calls on the same
planner every pathway appears twice.  Over the three-file tree `fsC9`, one
call accumulates 18 pathways but two calls accumulate 45, not 36: the second
call re-indexes, which appends every cluster member again (indexer line
296), so its clustering pathways carry cluster size 6 instead of 3 and the
accumulated list is not the first call's list doubled. -/
theorem spec2proof_C9_counterexample :
    (createExperientialPathwaysRun "repo" fsC9
      (createExperientialPathwaysRun "repo" fsC9 initC9)).experientialPathways.length = 45 ∧
    (createExperientialPathwaysRun "repo" fsC9 initC9).experientialPathways.length = 18 ∧
    (createExperientialPathwaysRun "repo" fsC9
      (createExperientialPathwaysRun "repo" fsC9 initC9)).experientialPathways ≠
      (createExperientialPathwaysRun "repo" fsC9 initC9).experientialPathways ++
        (createExperientialPathwaysRun "repo" fsC9 initC9).experientialPathways := by
  have hone : (createExperientialPathwaysRun "repo" fsC9 initC9).experientialPathways =
      newExperientialPathways stateC9one := by
    show initC9.experientialPathways ++
      newExperientialPathways
        (witnessRepositoryConsciousnessRun "repo" fsC9 initC9.indexerState) = _
    rw [show initC9.experientialPathways = ([] : List ExperientialPathway) from rfl,
      List.nil_append,
      show witnessRepositoryConsciousnessRun "repo" fsC9 initC9.indexerState =
        stateC9one from runC9_empty]
  have hix : (createExperientialPathwaysRun "repo" fsC9 initC9).indexerState = stateC9one := by
    show witnessRepositoryConsciousnessRun "repo" fsC9 initC9.indexerState = stateC9one
    exact runC9_empty
  have htwo : (createExperientialPathwaysRun "repo" fsC9
      (createExperientialPathwaysRun "repo" fsC9 initC9)).experientialPathways =
      newExperientialPathways stateC9one ++ newExperientialPathways stateC9two := by
    show (createExperientialPathwaysRun "repo" fsC9 initC9).experientialPathways ++
      newExperientialPathways (witnessRepositoryConsciousnessRun "repo" fsC9
        (createExperientialPathwaysRun "repo" fsC9 initC9).indexerState) = _
    rw [hone, hix, runC9_again]
  have hlen2 : (createExperientialPathwaysRun "repo" fsC9
      (createExperientialPathwaysRun "repo" fsC9 initC9)).experientialPathways.length = 45 := by
    rw [htwo, List.length_append, newPathwaysC9one_length, newPathwaysC9two_length]
  have hlen1 : (createExperientialPathwaysRun "repo" fsC9
      initC9).experientialPathways.length = 18 := by
    rw [hone, newPathwaysC9one_length]
  refine ⟨hlen2, hlen1, ?_⟩
  intro heq
  have hlens := congrArg List.length heq
  rw [hlen2, List.length_append, hlen1] at hlens
  omega

/-- C9, amended: planning is not idempotent — every call re-indexes and then
appends the full fresh pathway block computed from the re-indexed state to
the instance's pathway list, never clearing earlier calls (the earlier list
survives as an unchanged prefix), and a subsequent dry-run Execute processes
one result per accumulated pathway, duplicates included.  But because each
re-index appends every entry's tags to the shared cluster map again, the
second call's clustering pathways differ from the first call's (doubled
cluster sizes; 2-member clusters newly reach the ≥ 3 threshold), so it is
NOT the case that after two calls every pathway appears twice. -/
theorem spec2proof_C9 (root : String) (fs : List FSFile) (st : RefactorerState)
    (repoRoot targetDir : String) (pfs : PyFileSystem) :
    (createExperientialPathwaysRun root fs st).experientialPathways =
      st.experientialPathways ++
        newExperientialPathways
          (witnessRepositoryConsciousnessRun root fs st.indexerState) ∧
    (createExperientialPathwaysRun root fs st).experientialPathways.take
        st.experientialPathways.length = st.experientialPathways ∧
    (executeConsciousnessRefactoring repoRoot
        (createExperientialPathwaysRun root fs st).experientialPathways
        targetDir true pfs).2.length =
      st.experientialPathways.length +
        (newExperientialPathways
          (witnessRepositoryConsciousnessRun root fs st.indexerState)).length := by
  refine ⟨rfl, ?_, ?_⟩
  · show (st.experientialPathways ++
      newExperientialPathways
        (witnessRepositoryConsciousnessRun root fs st.indexerState)).take
      st.experientialPathways.length = st.experientialPathways
    exact List.take_left _ _
  · rw [dryRun_executions_length]
    show (st.experientialPathways ++
      newExperientialPathways
        (witnessRepositoryConsciousnessRun root fs st.indexerState)).length = _
    exact List.length_append _ _

/-! ## Claim C5 -/

/-- C5: for every query and result limit `k`, search returns at most `k`
results; every returned result corresponds to an indexed entry, carries
exactly the score `(2×|queryTokens ∩ pathTokens| + 3×|queryTokens ∩
tagTokens|) × weight`, and that score is strictly positive; and the returned
list is sorted by non-increasing score. -/
theorem spec2proof_C5 (m : List (String × ConsciousnessNode)) (query : String)
    (k : ℕ) :
    (searchConsciousness m query k).length ≤ k ∧
    (∀ r ∈ searchConsciousness m query k,
      (∃ pn ∈ m, r.path = pn.1 ∧ r.consciousness_node = pn.2 ∧
        r.relevance_score =
          ((pathMatchCount (pyFindWords (pyLower query)) pn.1 * 2 +
            tagMatchCount (pyFindWords (pyLower query)) pn.2 * 3 : ℕ) : ℚ) *
            pn.2.ontological_weight) ∧
      0 < r.relevance_score) ∧
    (searchConsciousness m query k).Sorted scoreDescOrder := by
  refine ⟨List.length_take_le k _, ?_, ?_⟩
  · intro r hr
    unfold searchConsciousness at hr
    have hr2 : r ∈ (m.filterMap (scoreEntry (pyFindWords (pyLower query)))).insertionSort
        scoreDescOrder := List.mem_of_mem_take hr
    rw [(List.perm_insertionSort scoreDescOrder _).mem_iff] at hr2
    rw [List.mem_filterMap] at hr2
    obtain ⟨pn, hpn, hsc⟩ := hr2
    unfold scoreEntry at hsc
    by_cases hpos : 0 < relevanceScoreOf (pyFindWords (pyLower query)) pn
    · rw [if_pos hpos] at hsc
      injection hsc with hsc
      constructor
      · exact ⟨pn, hpn, by rw [← hsc], by rw [← hsc],
          by rw [← hsc]; exact congrArg (· * pn.2.ontological_weight) rfl⟩
      · rw [← hsc]
        exact hpos
    · rw [if_neg hpos] at hsc
      exact absurd hsc (by simp)
  · unfold searchConsciousness
    exact (List.sorted_insertionSort scoreDescOrder _).sublist (List.take_sublist k _)

/-! ## The high-confidence example file -/

/-- Weight of `repo/patent_bayesian_consciousness.md`: `.md` multiplier plus
three keyword hits (patent, bayesian, consciousness). -/
theorem exampleHighFile_weight :
    computeOntologicalWeight (fullPathStr "repo" exampleHighFile) = 0.38 := by
  rw [computeOntologicalWeight_eq]
  rw [show pyLower (pathSuffix (fullPathStr "repo" exampleHighFile)) = ".md" from by decide]
  rw [show keywordHitCount (fullPathStr "repo" exampleHighFile) = 3 from by decide]
  rw [show multiplierFor ".md" = 0.8 from by simp [multiplierFor]]
  rw [min_eq_left (by norm_num)]
  norm_num

/-- Confidence of the example file: all four bonuses apply and the sum 1.25
is capped at 1. -/
theorem exampleHighFile_confidence :
    (createConsciousnessNode "repo" [exampleHighFile] exampleHighFile).epistemic_confidence = 1 := by
  rw [createConsciousnessNode_confidence, computeEpistemicConfidence_eq, exampleHighFile_weight]
  rw [show (extractPhenomenologicalTags (fullPathStr "repo" exampleHighFile)).length = 9 from by decide]
  rw [show pyContains (pyLower (fullPathStr "repo" exampleHighFile)) "patent" = true from by decide]
  norm_num [exampleHighFile, min_def]

/-- The index built over a tree holding only the example file has exactly
its entry. -/
theorem exampleHighFile_index :
    witnessRepositoryConsciousness "repo" [exampleHighFile] =
      [(relPathStr exampleHighFile,
        createConsciousnessNode "repo" [exampleHighFile] exampleHighFile)] := by
  have hb : (visitedByWalk exampleHighFile &&
      shouldIndexConsciousness (fullPathStr "repo" exampleHighFile)) = true := by decide
  have hc : epistemicConfidenceThreshold ≤
      (createConsciousnessNode "repo" [exampleHighFile] exampleHighFile).epistemic_confidence := by
    rw [exampleHighFile_confidence]
    unfold epistemicConfidenceThreshold
    norm_num
  unfold witnessRepositoryConsciousness
  simp only [List.filterMap_cons, List.filterMap_nil]
  rw [if_pos hb, if_pos hc]

/-! ## Claim C7 -/

/-- C7, counterexample.  The claim asserts equal entry counts are graded
`excellent` "for every entry count including zero", but with an empty
original index and an empty (existing) target tree both counts are 0, the
ratio is `0 / max(0,1) = 0`, and the verdict is `needs_attention`. -/
theorem spec2proof_C7_counterexample :
    (witnessRepositoryConsciousness "target" []).length = 0 ∧
    (validateConsciousnessPreservation 0 (some []) "target" false).target_consciousness_nodes =
      some 0 ∧
    (validateConsciousnessPreservation 0 (some []) "target" false).preservation_quality =
      some "needs_attention" ∧
    (validateConsciousnessPreservation 0 (some []) "target" false).preservation_quality ≠
      some "excellent" := by
  have hq : preservationQualityOf (preservationRatioOf 0
      (witnessRepositoryConsciousness "target" []).length) = "needs_attention" := by
    rw [show (witnessRepositoryConsciousness "target" []).length = 0 from rfl]
    unfold preservationRatioOf preservationQualityOf
    rw [if_neg (by norm_num), if_neg (by norm_num)]
  refine ⟨rfl, rfl, ?_, ?_⟩
  · show some (preservationQualityOf (preservationRatioOf 0
      (witnessRepositoryConsciousness "target" []).length)) = some "needs_attention"
    rw [hq]
  · show some (preservationQualityOf (preservationRatioOf 0
      (witnessRepositoryConsciousness "target" []).length)) ≠ some "excellent"
    rw [hq]
    decide

/-- C7, amended: whenever non-dry-run validation finds the re-indexed target
entry count equal to the original count and that count is positive, the
ratio is `n / max(n,1) = 1` and the quality is `excellent`; with both counts
zero the ratio is 0 and the verdict is `needs_attention` instead. -/
theorem spec2proof_C7 (origCount : ℕ) (tfs : List FSFile) (root : String)
    (hcount : (witnessRepositoryConsciousness root tfs).length = origCount)
    (hpos : 0 < origCount) :
    (validateConsciousnessPreservation origCount (some tfs) root false).preservation_quality =
      some "excellent" := by
  show some (preservationQualityOf (preservationRatioOf origCount
    (witnessRepositoryConsciousness root tfs).length)) = _
  rw [hcount]
  have hr : preservationRatioOf origCount origCount = 1 := by
    unfold preservationRatioOf
    rw [max_eq_left hpos]
    exact div_self (Nat.cast_ne_zero.mpr hpos.ne')
  rw [hr]
  unfold preservationQualityOf
  rw [if_pos (by norm_num)]

/-- C7, witness: a one-file target tree that re-indexes to the original
count 1 is graded excellent. -/
theorem spec2proof_C7_witness :
    (validateConsciousnessPreservation 1 (some [exampleHighFile]) "repo" false).preservation_quality =
      some "excellent" :=
  spec2proof_C7 1 [exampleHighFile] "repo" (by rw [exampleHighFile_index]; rfl) (by norm_num)

/-! ## Claim C1 -/

/-- The walk pruning together with the inclusion filter is exactly: allowed
extension, and not under a skipped system directory (in the sense of
`underSkippedSystemDir`). -/
theorem passesFilter_iff (root : String) (f : FSFile) :
    (visitedByWalk f && shouldIndexConsciousness (fullPathStr root f)) = true ↔
      (pyLower (pathSuffix (fullPathStr root f)) ∈ consciousnessExtensions ∧
        ¬ underSkippedSystemDir root f) := by
  rw [Bool.and_eq_true]
  constructor
  · rintro ⟨hv, hs⟩
    unfold shouldIndexConsciousness at hs
    split_ifs at hs with hA hB
    refine ⟨by simpa using hA, ?_⟩
    unfold underSkippedSystemDir
    rintro (⟨d, hd, hdisj⟩ | hpat)
    · unfold visitedByWalk at hv
      rw [List.all_eq_true] at hv
      have hall := hv d hd
      simp only [Bool.not_eq_true', Bool.or_eq_false_iff,
        decide_eq_false_iff_not] at hall
      rcases hdisj with h | h
      · rw [hall.1] at h
        exact absurd h (by simp)
      · exact hall.2 h
    · exact hB (by simpa [List.any_eq_true] using hpat)
  · rintro ⟨hext, hnsk⟩
    unfold underSkippedSystemDir at hnsk
    push_neg at hnsk
    obtain ⟨hdirs, hpats⟩ := hnsk
    constructor
    · unfold visitedByWalk
      rw [List.all_eq_true]
      intro d hd
      have hnd := hdirs d hd
      push_neg at hnd
      simp only [Bool.not_eq_true', Bool.or_eq_false_iff,
        decide_eq_false_iff_not]
      exact ⟨by simpa using hnd.1, hnd.2⟩
    · unfold shouldIndexConsciousness
      rw [if_neg (by simpa using hext), if_neg]
      rw [List.any_eq_true]
      rintro ⟨pat, hpat, hc⟩
      exact (hpats pat hpat) hc

/-- C1: for a file of the scanned tree (with the filesystem's paths
distinct), an entry for its relative path exists in the built index if and
only if its lower-cased extension is in the allowed set, it is not under a
skipped system directory (walk pruning or skip-pattern marker), and its
computed confidence reaches the 0.954 threshold. -/
theorem spec2proof_C1 (root : String) (fs : List FSFile) (f : FSFile)
    (hf : f ∈ fs) (hnd : (fs.map relPathStr).Nodup) :
    (∃ node, (relPathStr f, node) ∈ witnessRepositoryConsciousness root fs) ↔
      (pyLower (pathSuffix (fullPathStr root f)) ∈ consciousnessExtensions ∧
        ¬ underSkippedSystemDir root f ∧
        epistemicConfidenceThreshold ≤
          (createConsciousnessNode root fs f).epistemic_confidence) := by
  constructor
  · rintro ⟨node, hmem⟩
    unfold witnessRepositoryConsciousness at hmem
    rw [List.mem_filterMap] at hmem
    obtain ⟨g, hg, hsome⟩ := hmem
    by_cases hc1 : (visitedByWalk g && shouldIndexConsciousness (fullPathStr root g)) = true
    · rw [if_pos hc1] at hsome
      by_cases hc2 : epistemicConfidenceThreshold ≤
          (createConsciousnessNode root fs g).epistemic_confidence
      · rw [if_pos hc2] at hsome
        have hpair := Option.some.inj hsome
        have hrel : relPathStr g = relPathStr f := congrArg Prod.fst hpair
        have hgf : g = f := List.inj_on_of_nodup_map hnd hg hf hrel
        subst hgf
        have h12 := (passesFilter_iff root g).mp hc1
        exact ⟨h12.1, h12.2, hc2⟩
      · rw [if_neg hc2] at hsome
        exact absurd hsome (by simp)
    · rw [if_neg hc1] at hsome
      exact absurd hsome (by simp)
  · rintro ⟨h1, h2, h3⟩
    refine ⟨createConsciousnessNode root fs f, ?_⟩
    unfold witnessRepositoryConsciousness
    rw [List.mem_filterMap]
    refine ⟨f, hf, ?_⟩
    rw [if_pos ((passesFilter_iff root f).mpr ⟨h1, h2⟩), if_pos h3]

/-- C1, witness: the tree holding only `patent_bayesian_consciousness.md`
satisfies all three conditions, so the index holds an entry for it. -/
theorem spec2proof_C1_witness :
    ∃ node, (relPathStr exampleHighFile, node) ∈
      witnessRepositoryConsciousness "repo" [exampleHighFile] :=
  (spec2proof_C1 "repo" [exampleHighFile] exampleHighFile (by decide) (by decide)).mpr
    ⟨by decide, by decide,
      by
        rw [exampleHighFile_confidence]
        unfold epistemicConfidenceThreshold
        norm_num⟩

/-! ## Claim C8 -/

/-- In an association list with distinct keys, `lookup` of a member key
returns its value. -/
theorem lookup_eq_of_mem_of_nodup {β : Type} {m : List (String × β)}
    (hnd : (m.map Prod.fst).Nodup) {k : String} {v : β} (hm : (k, v) ∈ m) :
    m.lookup k = some v := by
  induction m with
  | nil => cases hm
  | cons a tl ih =>
    obtain ⟨a1, a2⟩ := a
    rw [List.map_cons, List.nodup_cons] at hnd
    rcases List.mem_cons.mp hm with heq | hmem
    · obtain ⟨h1, h2⟩ := Prod.mk.inj heq.symm
      subst h1
      subst h2
      simp [List.lookup]
    · have hne : (k == a1) = false := by
        rw [beq_eq_false_iff_ne]
        intro hke
        subst hke
        exact hnd.1 (List.mem_map.mpr ⟨(k, v), hmem, rfl⟩)
      simp only [List.lookup, hne]
      exact ih hnd.2 hmem

/-- The dependency list once the source entry's lookup is resolved. -/
theorem findConsciousnessDependencies_eq (m : List (String × ConsciousnessNode))
    (k : String) (node : ConsciousnessNode) (hlk : m.lookup k = some node) :
    findConsciousnessDependencies m k =
      ((m.filter (fun q => q.1 ≠ k ∧ 2 ≤ sharedTagCount node q.2)).map
        (fun q => q.1)).take 5 := by
  unfold findConsciousnessDependencies
  rw [hlk]

/-- C8: with distinct keys, the preservation strategy emits exactly one
priority-1 pathway per entry with confidence ≥ 0.9 (their sources, in order,
are exactly the qualifying keys) and none for entries below 0.9; each
pathway is targeted under the preserved-content root subdivided by the
normalized content-type name, and its dependencies are at most 5 other
indexed entries sharing at least 2 tags with it. -/
theorem spec2proof_C8 (m : List (String × ConsciousnessNode))
    (hnd : (m.map Prod.fst).Nodup) :
    ((createConsciousnessPreservationPathways m).map (fun pw => pw.source_path) =
      (m.filter (fun pn => (0.9 : ℚ) ≤ pn.2.epistemic_confidence)).map Prod.fst) ∧
    (∀ pw ∈ createConsciousnessPreservationPathways m,
      pw.deployment_priority = 1 ∧
      pw.phenomenological_dependencies.length ≤ 5 ∧
      ∃ pn ∈ m, (0.9 : ℚ) ≤ pn.2.epistemic_confidence ∧ pw.source_path = pn.1 ∧
        pw.target_path =
          "consciousness_preservation/" ++
            pyReplace (pyReplace pn.2.content_type "consciousness" "") "_" "" ++ "/" ++
            fileName pn.1 ∧
        ∀ d ∈ pw.phenomenological_dependencies,
          d ≠ pn.1 ∧ ∃ qn ∈ m, qn.1 = d ∧ 2 ≤ sharedTagCount pn.2 qn.2) ∧
    (∀ pn ∈ m, pn.2.epistemic_confidence < 0.9 →
      ∀ pw ∈ createConsciousnessPreservationPathways m, pw.source_path ≠ pn.1) := by
  have hmap : (createConsciousnessPreservationPathways m).map (fun pw => pw.source_path) =
      (m.filter (fun pn => (0.9 : ℚ) ≤ pn.2.epistemic_confidence)).map Prod.fst := by
    unfold createConsciousnessPreservationPathways
    rw [List.map_map]
    rfl
  refine ⟨hmap, ?_, ?_⟩
  · intro pw hpw
    unfold createConsciousnessPreservationPathways at hpw
    rw [List.mem_map] at hpw
    obtain ⟨pn, hpnF, hpweq⟩ := hpw
    rw [List.mem_filter] at hpnF
    obtain ⟨hpnm, hconfb⟩ := hpnF
    have hconf : (0.9 : ℚ) ≤ pn.2.epistemic_confidence := of_decide_eq_true hconfb
    have hdeps : findConsciousnessDependencies m pn.1 =
        ((m.filter (fun q => q.1 ≠ pn.1 ∧ 2 ≤ sharedTagCount pn.2 q.2)).map
          (fun q => q.1)).take 5 :=
      findConsciousnessDependencies_eq m pn.1 pn.2
        (lookup_eq_of_mem_of_nodup hnd hpnm)
    subst hpweq
    refine ⟨rfl, ?_, pn, hpnm, hconf, rfl, rfl, ?_⟩
    · show (findConsciousnessDependencies m pn.1).length ≤ 5
      rw [hdeps]
      exact List.length_take_le 5 _
    · intro d hd
      have hd1 : d ∈ ((m.filter (fun q => q.1 ≠ pn.1 ∧ 2 ≤ sharedTagCount pn.2 q.2)).map
          (fun q => q.1)).take 5 := by
        rw [← hdeps]
        exact hd
      have hd2 := List.mem_of_mem_take hd1
      rw [List.mem_map] at hd2
      obtain ⟨qn, hqnF, hqd⟩ := hd2
      rw [List.mem_filter] at hqnF
      obtain ⟨hqnm, hcondb⟩ := hqnF
      have hcond := of_decide_eq_true hcondb
      exact ⟨hqd ▸ hcond.1, qn, hqnm, hqd, hcond.2⟩
  · intro pn hpnm hlow pw hpw hsrc
    have hsm : pw.source_path ∈
        (m.filter (fun pn => (0.9 : ℚ) ≤ pn.2.epistemic_confidence)).map Prod.fst := by
      rw [← hmap]
      exact List.mem_map_of_mem _ hpw
    rw [List.mem_map] at hsm
    obtain ⟨qn, hqnF, hq⟩ := hsm
    rw [List.mem_filter] at hqnF
    have hqconf : (0.9 : ℚ) ≤ qn.2.epistemic_confidence := of_decide_eq_true hqnF.2
    have hqq : qn = pn :=
      List.inj_on_of_nodup_map hnd hqnF.1 hpnm (by rw [hq, hsrc])
    rw [hqq] at hqconf
    exact absurd hqconf (not_le.mpr hlow)

/-- C8, witness: the five-entry scenario — five entries at confidence 0.95
(and one at 0.5) produce exactly the five qualifying sources. -/
theorem spec2proof_C8_witness :
    (createConsciousnessPreservationPathways exampleC8Map).map (fun pw => pw.source_path) =
      ["p1.md", "p2.md", "p3.md", "p4.md", "p5.md"] := by
  rw [(spec2proof_C8 exampleC8Map (by decide)).1]
  norm_num [exampleC8Map, exampleNode, List.filter_cons, decide_eq_true_eq]
